import Mathlib

/-!
Shallow embedding of `britney2/excuse.py` (the `Excuse` class, its mutators
and its two renderers) together with theorems about the specified behaviour.

Python conventions are mapped as follows: `None`-able fields become `Option`,
Python `set`s become insertion-order lists with add-if-absent (only their
membership and sorted renderings are ever observed), insertion-ordered
`dict`s become association lists, and a Python statement that can raise
(`source[0]` on an empty string) makes the embedding of the enclosing
function return `Option`.
-/

set_option autoImplicit false

/-- Modelled from the spec: the closed verdict enumeration is supplied by the
external policy framework (`britney2/policies/policy.py`, not part of this
slice).  The spec lists the eight outcomes pass / pass-by-hint /
rejected-temporarily / rejected-waiting-on-item / rejected-blocked-by-item /
rejected-needs-approval / rejected-indeterminate / rejected-permanently. -/
inductive PolicyVerdict where
  | PASS
  | PASS_HINTED
  | REJECTED_TEMPORARILY
  | REJECTED_WAITING_FOR_ANOTHER_ITEM
  | REJECTED_BLOCKED_BY_ANOTHER_ITEM
  | REJECTED_NEEDS_APPROVAL
  | REJECTED_CANNOT_DETERMINE_IF_PERMANENT
  | REJECTED_PERMANENTLY
deriving DecidableEq, Repr

namespace PolicyVerdict

/-- Modelled from the spec: the terminal-reject classification
(`is_rejected` on the external verdict enumeration) holds exactly for the
rejected outcomes. -/
def is_rejected : PolicyVerdict → Bool
  | PASS => false
  | PASS_HINTED => false
  | _ => true

/-- The symbolic name of the verdict (Python `Enum.name`), used by the
structured renderer. -/
def pvName : PolicyVerdict → String
  | PASS => "PASS"
  | PASS_HINTED => "PASS_HINTED"
  | REJECTED_TEMPORARILY => "REJECTED_TEMPORARILY"
  | REJECTED_WAITING_FOR_ANOTHER_ITEM => "REJECTED_WAITING_FOR_ANOTHER_ITEM"
  | REJECTED_BLOCKED_BY_ANOTHER_ITEM => "REJECTED_BLOCKED_BY_ANOTHER_ITEM"
  | REJECTED_NEEDS_APPROVAL => "REJECTED_NEEDS_APPROVAL"
  | REJECTED_CANNOT_DETERMINE_IF_PERMANENT => "REJECTED_CANNOT_DETERMINE_IF_PERMANENT"
  | REJECTED_PERMANENTLY => "REJECTED_PERMANENTLY"

end PolicyVerdict

/-- Modelled from the spec: the dependency-kind enumeration is supplied by the
external collaborator (`britney2/__init__.py`, not part of this slice); the
spec only requires it to distinguish at least the primary "depends" kind from
other relation kinds, each with a display form. -/
inductive DependencyType where
  | DEPENDS
  | BUILD_DEPENDS
deriving DecidableEq, Repr

/-- Modelled from the spec: display form (Python `str()`) of a dependency
kind, used for sorting and for the HTML line. -/
def DependencyType.dtStr : DependencyType → String
  | .DEPENDS => "Depends"
  | .BUILD_DEPENDS => "Build-Depends"

/-- A hint record: the core only reads its kind tag and attributing user. -/
structure Hint where
  type : String
  user : String
deriving DecidableEq, Repr

/-- Python truthiness of an optional string (`None` and `""` are falsy). -/
def strTruthy : Option String → Bool
  | none => false
  | some s => s ≠ ""

/-- Insertion-order add-if-absent, the embedding of both `set.add` (whose
order is never observed: only membership and sorted renderings are) and of
the `if x not in xs: xs.append(x)` idiom. -/
def listInsert {α : Type} [DecidableEq α] (a : α) (l : List α) : List α :=
  if a ∈ l then l else l ++ [a]

/-- Boolean `≤` on strings (Python string comparison is the same
lexicographic order on code points). -/
def strLeB (a b : String) : Bool := !(decide (b < a))

/-- Stable insertion of `a` into a `le`-sorted list: `a` goes after every
element `≤` it. -/
def insertLe {α : Type} (le : α → α → Bool) (a : α) : List α → List α
  | [] => [a]
  | b :: l => if le b a then b :: insertLe le a l else a :: b :: l

/-- Stable sort by a boolean `≤` (left-to-right insertion sort), the
embedding of Python `sorted` (which is a stable sort). -/
def sortByLe {α : Type} (le : α → α → Bool) (l : List α) : List α :=
  l.foldl (fun acc a => insertLe le a acc) []

/-- `sorted(...)` on a list of strings. -/
def sortedStr (l : List String) : List String := sortByLe strLeB l

/-- Python `c in s` on a string: membership of the character. -/
def strContains (c : Char) (s : String) : Bool := s.data.contains c

/-- The state of one `Excuse` record (`Excuse.__init__` fields). -/
structure Excuse where
  name : String
  ver : String × String
  maint : Option String
  daysold : Option Nat
  mindays : Option Nat
  sect : Option String
  needs_approval : Bool
  hints : List Hint
  forced : Bool
  policy_verdict : PolicyVerdict
  all_invalid_deps : List String
  all_deps : List (String × List (DependencyType × List String))
  sane_deps : List String
  break_deps : List (String × String)
  unsatisfiable_on_archs : List String
  unsat_deps : List (String × List String)
  newbugs : List String
  oldbugs : List String
  reason : List String
  htmlline : List String
  missing_builds : List String
  missing_builds_ood_arch : List String
  old_binaries : List (String × List String)
  policy_info : List (String × String)
  bounty : List (String × Int)
  penalty : List (String × Int)
deriving DecidableEq, Repr

namespace Excuse

/-- `Excuse.__init__(name)`: all fields at their defaults. -/
def init (name : String) : Excuse where
  name := name
  ver := ("-", "-")
  maint := none
  daysold := none
  mindays := none
  sect := none
  needs_approval := false
  hints := []
  forced := false
  policy_verdict := .REJECTED_PERMANENTLY
  all_invalid_deps := []
  all_deps := []
  sane_deps := []
  break_deps := []
  unsatisfiable_on_archs := []
  unsat_deps := []
  newbugs := []
  oldbugs := []
  reason := []
  htmlline := []
  missing_builds := []
  missing_builds_ood_arch := []
  old_binaries := []
  policy_info := []
  bounty := []
  penalty := []

/-- `Excuse.sortkey`. -/
def sortkey (e : Excuse) : Int × String :=
  match e.daysold with
  | none => (-1, e.name)
  | some d => ((d : Int), e.name)

/-- `Excuse.is_valid` (property): `False if self._policy_verdict.is_rejected else True`. -/
def is_valid (e : Excuse) : Bool :=
  if e.policy_verdict.is_rejected then false else true

/-- The `policy_verdict` property setter: a rejected verdict assigned to a
forced record is rewritten to `PASS_HINTED` before being stored. -/
def set_policy_verdict (value : PolicyVerdict) (e : Excuse) : Excuse :=
  let value := if value.is_rejected && e.forced then PolicyVerdict.PASS_HINTED else value
  { e with policy_verdict := value }

/-- `Excuse.set_vers(tver, uver)`: merge-update of the version pair,
with Python truthiness on each argument. -/
def set_vers (tver uver : Option String) (e : Excuse) : Excuse :=
  if strTruthy tver && strTruthy uver then
    { e with ver := (tver.getD "", uver.getD "") }
  else if strTruthy tver then
    { e with ver := (tver.getD "", e.ver.2) }
  else if strTruthy uver then
    { e with ver := (e.ver.1, uver.getD "") }
  else e

/-- `Excuse.set_section`. -/
def set_section (section' : Option String) (e : Excuse) : Excuse :=
  { e with sect := section' }

/-- `Excuse.add_dependency(deptype, name, arch)`: create the nested entries
if absent, then append `arch` unconditionally. -/
def add_dependency (deptype : DependencyType) (name arch : String) (e : Excuse) : Excuse :=
  match (e.all_deps.lookup name) with
  | none =>
      { e with all_deps := e.all_deps ++ [(name, [(deptype, [arch])])] }
  | some kinds =>
      let kinds' :=
        match kinds.lookup deptype with
        | none => kinds ++ [(deptype, [arch])]
        | some archs =>
            kinds.map (fun p => if p.1 = deptype then (p.1, archs ++ [arch]) else p)
      { e with all_deps := e.all_deps.map (fun p => if p.1 = name then (p.1, kinds') else p) }

/-- `Excuse.add_sane_dep`. -/
def add_sane_dep (name : String) (e : Excuse) : Excuse :=
  { e with sane_deps := if name ∈ e.sane_deps then e.sane_deps else e.sane_deps ++ [name] }

/-- `Excuse.add_break_dep`. -/
def add_break_dep (name arch : String) (e : Excuse) : Excuse :=
  { e with break_deps :=
      if (name, arch) ∈ e.break_deps then e.break_deps else e.break_deps ++ [(name, arch)] }

/-- `Excuse.add_unsatisfiable_on_arch`. -/
def add_unsatisfiable_on_arch (arch : String) (e : Excuse) : Excuse :=
  { e with unsatisfiable_on_archs :=
      if arch ∈ e.unsatisfiable_on_archs then e.unsatisfiable_on_archs
      else e.unsatisfiable_on_archs ++ [arch] }

/-- `Excuse.add_unsatisfiable_dep(signature, arch)`: insert into the
per-architecture set of the `defaultdict(set)`. -/
def add_unsatisfiable_dep (signature arch : String) (e : Excuse) : Excuse :=
  match e.unsat_deps.lookup arch with
  | none => { e with unsat_deps := e.unsat_deps ++ [(arch, [signature])] }
  | some sigs =>
      { e with unsat_deps :=
          e.unsat_deps.map (fun p => if p.1 = arch then (p.1, listInsert signature sigs) else p) }

/-- `Excuse.invalidate_dependency`. -/
def invalidate_dependency (name : String) (e : Excuse) : Excuse :=
  { e with all_invalid_deps := listInsert name e.all_invalid_deps }

/-- `Excuse.setdaysold`. -/
def setdaysold (daysold mindays : Nat) (e : Excuse) : Excuse :=
  { e with daysold := some daysold, mindays := some mindays }

/-- `Excuse.force()`: returns the boolean result together with the new state. -/
def force (e : Excuse) : Bool × Excuse :=
  let e := { e with forced := true }
  if e.policy_verdict.is_rejected then
    (true, { e with policy_verdict := .PASS_HINTED })
  else
    (false, e)

/-- `Excuse.addhtml`. -/
def addhtml (note : String) (e : Excuse) : Excuse :=
  { e with htmlline := e.htmlline ++ [note] }

/-- `Excuse.missing_build_on_arch`. -/
def missing_build_on_arch (arch : String) (e : Excuse) : Excuse :=
  { e with missing_builds := listInsert arch e.missing_builds }

/-- `Excuse.missing_build_on_ood_arch`: as written in the source this adds to
`missing_builds`, not to `missing_builds_ood_arch`. -/
def missing_build_on_ood_arch (arch : String) (e : Excuse) : Excuse :=
  { e with missing_builds := listInsert arch e.missing_builds }

/-- `Excuse.add_old_binary`. -/
def add_old_binary (binary from_source_version : String) (e : Excuse) : Excuse :=
  match e.old_binaries.lookup from_source_version with
  | none => { e with old_binaries := e.old_binaries ++ [(from_source_version, [binary])] }
  | some bins =>
      { e with old_binaries :=
          e.old_binaries.map fun p =>
            if p.1 = from_source_version then (p.1, listInsert binary bins) else p }

/-- `Excuse.add_hint`. -/
def add_hint (hint : Hint) (e : Excuse) : Excuse :=
  { e with hints := e.hints ++ [hint] }

/-- `Excuse.setbugs`: union-merge into the existing sets. -/
def setbugs (oldbugs newbugs : List String) (e : Excuse) : Excuse :=
  { e with
      newbugs := newbugs.foldl (fun acc b => listInsert b acc) e.newbugs,
      oldbugs := oldbugs.foldl (fun acc b => listInsert b acc) e.oldbugs }

/-- `Excuse.addreason`: `self.reason[reason] = 1` (re-adding an existing key
keeps its position). -/
def addreason (reason : String) (e : Excuse) : Excuse :=
  { e with reason := listInsert reason e.reason }

/-- `Excuse.add_bounty`. -/
def add_bounty (policy : String) (bounty : Int) (e : Excuse) : Excuse :=
  match e.bounty.lookup policy with
  | none => { e with bounty := e.bounty ++ [(policy, bounty)] }
  | some _ => { e with bounty := e.bounty.map (fun p => if p.1 = policy then (p.1, bounty) else p) }

/-- `Excuse.add_penalty`. -/
def add_penalty (policy : String) (penalty : Int) (e : Excuse) : Excuse :=
  match e.penalty.lookup policy with
  | none => { e with penalty := e.penalty ++ [(policy, penalty)] }
  | some _ =>
      { e with penalty := e.penalty.map (fun p => if p.1 = policy then (p.1, penalty) else p) }

/-- `Excuse._text()`: one entry per HTML note line, `"" + x + ""`. -/
def text (e : Excuse) : List String :=
  e.htmlline.map (fun x => "" ++ x ++ "")

end Excuse

/-- Python `s.split(c)[0]`: the part of `s` before the first occurrence of
`c` (the whole of `s` when `c` does not occur). -/
def beforeFirst (c : Char) (s : String) : String :=
  ⟨s.data.takeWhile (· ≠ c)⟩

/-- The `source` derivation at the top of `Excuse.excusedata`: strip after the
first `_`, then after the first `/`, then one leading `-`.  The check
`source[0] == '-'` raises `IndexError` when the intermediate string is empty,
which this embedding renders as `none`. -/
def sourceOfName (name : String) : Option String :=
  let source := name
  let source := if strContains '_' source then beforeFirst '_' source else source
  let source := if strContains '/' source then beforeFirst '/' source else source
  match source.data with
  | [] => none
  | c :: rest => if c = '-' then some ⟨rest⟩ else some source

/-- Written from the spec's words, for comparison with `sourceOfName`:
"stripping a trailing `_suffix` segment (first `_`-delimited component only),
then a trailing `/suffix` segment, then a single leading `-` character,
applied in that fixed order". -/
def specSource (name : String) : String :=
  let s := beforeFirst '/' (beforeFirst '_' name)
  match s.data with
  | '-' :: rest => ⟨rest⟩
  | _ => s

/-- The `missing-builds` sub-document of the structured rendering. -/
structure MissingBuildsData where
  on_architectures : List String
  on_unimportant_architectures : List String
deriving DecidableEq, Repr

/-- The `dependencies` sub-document of the structured rendering; a field is
`none` when its key is absent from the Python dict. -/
structure DependenciesData where
  blocked_by : Option (List String)
  migrate_after : Option (List String)
  unimportant_dependencies : Option (List String)
  unsatisfiable_dependencies : Option (List (String × List String))
deriving DecidableEq, Repr

/-- One entry of the `hints` list of the structured rendering. -/
structure HintData where
  hint_type : String
  hint_from : String
deriving DecidableEq, Repr

/-- The structured document built by `Excuse.excusedata`.  Keys that the code
emits unconditionally are plain fields; keys emitted under an `if` are
`Option` fields, `none` meaning the key is absent. -/
structure ExcuseData where
  excuses : List String
  item_name : String
  source : String
  migration_policy_verdict : String
  old_version : String
  new_version : String
  maintainer : Option String
  component : Option String
  policy_info : Option (List (String × String))
  missing_builds : Option MissingBuildsData
  invalidated_by_other_package : Option Bool
  dependencies : Option DependenciesData
  manual_approval_status : Option String
  hints : Option (List HintData)
  old_binaries : Option (List (String × List String))
  forced_reason : Option (List String)
  reason : List String
  is_candidate : Bool
deriving DecidableEq, Repr

namespace Excuse

/-- `Excuse.excusedata()`: the structured rendering.  Returns `none` exactly
when the `source[0]` access raises (see `sourceOfName`). -/
def excusedata (e : Excuse) : Option ExcuseData :=
  match sourceOfName e.name with
  | none => none
  | some source =>
    let dep_data : Option DependenciesData :=
      if e.all_deps ≠ [] ∨ e.all_invalid_deps ≠ [] ∨ e.break_deps ≠ [] ∨ e.unsat_deps ≠ [] then
        let migrate_after :=
          sortedStr ((e.all_deps.map Prod.fst).filter (fun x => x ∉ e.all_invalid_deps))
        let break_deps :=
          (e.break_deps.map Prod.fst).filter (fun x => (e.all_deps.lookup x).isNone)
        some {
          blocked_by :=
            if e.all_invalid_deps ≠ [] then some (sortedStr e.all_invalid_deps) else none
          migrate_after := if migrate_after ≠ [] then some migrate_after else none
          unimportant_dependencies := if break_deps ≠ [] then some (sortedStr break_deps) else none
          unsatisfiable_dependencies :=
            if e.unsat_deps ≠ [] then some (e.unsat_deps.map (fun p => (p.1, sortedStr p.2)))
            else none }
      else none
    some {
      excuses := e.text
      item_name := e.name
      source := source
      migration_policy_verdict := e.policy_verdict.pvName
      old_version := e.ver.1
      new_version := e.ver.2
      maintainer := if strTruthy e.maint then e.maint else none
      component :=
        match e.sect with
        | some s => if s ≠ "" && strContains '/' s then some (beforeFirst '/' s) else none
        | none => none
      policy_info := if e.policy_info ≠ [] then some e.policy_info else none
      missing_builds :=
        if e.missing_builds ≠ [] ∨ e.missing_builds_ood_arch ≠ [] then
          some {
            on_architectures := sortedStr e.missing_builds
            on_unimportant_architectures := sortedStr e.missing_builds_ood_arch }
        else none
      invalidated_by_other_package := if e.all_invalid_deps ≠ [] then some true else none
      dependencies := dep_data
      manual_approval_status :=
        if e.needs_approval then
          some (if e.hints.any (fun h => h.type = "unblock") then "approved" else "not-approved")
        else none
      hints :=
        if e.hints ≠ [] then some (e.hints.map (fun h => ⟨h.type, h.user⟩)) else none
      old_binaries :=
        if e.old_binaries ≠ [] then some (e.old_binaries.map (fun p => (p.1, sortedStr p.2)))
        else none
      forced_reason := if e.forced then some (sortedStr e.reason) else none
      reason := if e.forced then [] else sortedStr e.reason
      is_candidate := e.is_valid }

end Excuse

/-- The module-level `VERDICT2DESC` dict.  All eight verdicts of the
modelled enumeration carry a description, exactly as in the source dict. -/
def VERDICT2DESC : PolicyVerdict → Option String
  | .PASS =>
      some "Will attempt migration (Any information below is purely informational)"
  | .PASS_HINTED =>
      some "Will attempt migration due to a hint (Any information below is purely informational)"
  | .REJECTED_TEMPORARILY =>
      some "Waiting for test results, another package or too young (no action required now - check later)"
  | .REJECTED_WAITING_FOR_ANOTHER_ITEM =>
      some "Waiting for another item to be ready to migrate (no action required now - check later)"
  | .REJECTED_BLOCKED_BY_ANOTHER_ITEM =>
      some "BLOCKED: Cannot migrate due to another item, which is blocked (please check which dependencies are stuck)"
  | .REJECTED_NEEDS_APPROVAL =>
      some "BLOCKED: Needs an approval (either due to a freeze, the source suite or a manual hint)"
  | .REJECTED_CANNOT_DETERMINE_IF_PERMANENT =>
      some "BLOCKED: Maybe temporary, maybe blocked but Britney is missing information (check below or the buildds)"
  | .REJECTED_PERMANENTLY =>
      some "BLOCKED: Rejected/introduces a regression"

namespace Excuse

/-- `Excuse._format_verdict_summary`. -/
def format_verdict_summary (e : Excuse) : String :=
  match VERDICT2DESC e.policy_verdict with
  | some d => d
  | none =>
      "UNKNOWN: Missing description for " ++ e.policy_verdict.pvName ++
        " - Please file a bug against Britney"

/-- `Excuse._render_dep_issues(dep_issues, invalid_deps)`.  The iteration
keys are sorted (stably) by the part before the first `/`; within a key the
dependency kinds are sorted by display form and deduplicated via `seen`,
which is reset whenever the name-part changes.  (Python leaves `seen`
unassigned until the first group change; the first key's name-part always
differs from the initial `lastdep = ""` whenever that part is non-empty, so
the embedding initialises `seen` to the empty set.) -/
def render_dep_issues (name : String)
    (dep_issues : List (String × List (DependencyType × List String)))
    (invalid_deps : List String) : String :=
  let sortedIssues :=
    sortByLe (fun a b => strLeB (beforeFirst '/' a.1) (beforeFirst '/' b.1)) dep_issues
  let step := fun (acc : String × String × List DependencyType)
      (x : String × List (DependencyType × List String)) =>
    let res := acc.1
    let lastdep := acc.2.1
    let seen := acc.2.2
    let dep := beforeFirst '/' x.1
    let seen := if dep ≠ lastdep then [] else seen
    let kindsSorted := sortByLe (fun a b => strLeB a.1.dtStr b.1.dtStr) x.2
    let inner := kindsSorted.foldl (fun (acc2 : String × List DependencyType) kv =>
      if kv.1 ∈ acc2.2 then acc2
      else
        let line :=
          if x.1 ∈ invalid_deps then
            "<li>" ++ kv.1.dtStr ++ ": " ++ name ++ " <a href=\"#" ++ dep ++ "\">" ++ dep ++
              "</a> (not considered)\n"
          else
            "<li>" ++ kv.1.dtStr ++ ": " ++ name ++ " <a href=\"#" ++ dep ++ "\">" ++ dep ++
              "</a>\n"
        (acc2.1 ++ line, acc2.2 ++ [kv.1])) (res, seen)
    (inner.1, dep, inner.2)
  (sortedIssues.foldl step ("", "", [])).1

/-- `Excuse.html()`: the HTML rendering.  Returns `none` exactly when the age
block would raise in Python (`self.daysold < self.mindays` with `mindays`
still `None`), which is unreachable through `setdaysold`. -/
def html (e : Excuse) : Option String :=
  let agePart : Option String :=
    match e.daysold, e.mindays with
    | none, _ => some ""
    | some d, some m =>
        some (if m = 0 then "<li>" ++ toString d ++ " days old\n"
              else if d < m then
                "<li>Too young, only " ++ toString d ++ " of " ++ toString m ++ " days old\n"
              else "<li>" ++ toString d ++ " days old (needed " ++ toString m ++ " days)\n")
    | some _, none => none
  match agePart with
  | none => none
  | some age =>
    let res := "<a id=\"" ++ e.name ++ "\" name=\"" ++ e.name ++ "\">" ++ e.name ++
      "</a> (" ++ e.ver.1 ++ " to " ++ e.ver.2 ++ ")\n<ul>\n"
    let res := res ++ "<li>Migration status: " ++ e.format_verdict_summary ++ "\n"
    let res := res ++
      (if strTruthy e.maint then "<li>Maintainer: " ++ e.maint.getD "" ++ "\n" else "")
    let res := res ++
      (if strTruthy e.sect && strContains '/' (e.sect.getD "") then
        "<li>Section: " ++ e.sect.getD "" ++ "\n"
      else "")
    let res := res ++ age
    let res := e.htmlline.foldl (fun acc x => acc ++ "<li>" ++ x ++ "\n") res
    let res := res ++ render_dep_issues e.name e.all_deps e.all_invalid_deps
    let res := e.break_deps.foldl (fun acc p =>
      if (e.all_deps.lookup p.1).isNone then
        acc ++ "<li>Ignoring " ++ p.2 ++ " depends: <a href=\"#" ++ p.1 ++ "\">" ++ p.1 ++
          "</a>\n"
      else acc) res
    some (res ++ "</ul>\n")

end Excuse

/-- Strict ordering on sort keys, as used when Python sorts tuples
`(int, str)` lexicographically. -/
def keyLt (k1 k2 : Int × String) : Prop :=
  k1.1 < k2.1 ∨ (k1.1 = k2.1 ∧ k1.2 < k2.2)

/-- Spec end-to-end scenario A: record `libfoo`, versions `("1.0", "1.1")`,
verdict pass, no dependencies. -/
def scenarioA : Excuse :=
  Excuse.set_policy_verdict .PASS
    (Excuse.set_vers (some "1.0") (some "1.1") (Excuse.init "libfoo"))

/-- Spec end-to-end scenario B: scenario A plus a `depends` edge on `libbar`
for `amd64` and `invalidate_dependency("libbar")`. -/
def scenarioB : Excuse :=
  Excuse.invalidate_dependency "libbar"
    (Excuse.add_dependency .DEPENDS "libbar" "amd64" scenarioA)

/-- A fresh record on which only `missing_build_on_ood_arch("amd64")` was
called. -/
def oodArchRecord : Excuse :=
  Excuse.missing_build_on_ood_arch "amd64" (Excuse.init "foo")

/-- A fresh record with two HTML note lines. -/
def notesRecord : Excuse :=
  Excuse.addhtml "note-b" (Excuse.addhtml "note-a" (Excuse.init "foo"))

/-- The structured document of `notesRecord`, written out in full. -/
def notesRecordData : ExcuseData where
  excuses := ["note-a", "note-b"]
  item_name := "foo"
  source := "foo"
  migration_policy_verdict := "REJECTED_PERMANENTLY"
  old_version := "-"
  new_version := "-"
  maintainer := none
  component := none
  policy_info := none
  missing_builds := none
  invalidated_by_other_package := none
  dependencies := none
  manual_approval_status := none
  hints := none
  old_binaries := none
  forced_reason := none
  reason := []
  is_candidate := false

theorem takeWhile_ne_of_not_contains (l : List Char) (c : Char) (h : l.contains c = false) :
    l.takeWhile (· ≠ c) = l := by
  rw [List.takeWhile_eq_self_iff]
  intro a ha
  simp only [ne_eq, decide_eq_true_eq]
  intro heq
  subst heq
  simp only [List.contains, List.elem_eq_mem, decide_eq_true_eq] at h
  exact absurd ha (by simpa using h)

theorem beforeFirst_of_not_contains (c : Char) (s : String) (h : strContains c s = false) :
    beforeFirst c s = s := by
  unfold strContains at h
  unfold beforeFirst
  apply String.ext
  simpa using takeWhile_ne_of_not_contains s.data c h

theorem iteContains_eq_beforeFirst (c : Char) (s : String) :
    (if strContains c s then beforeFirst c s else s) = beforeFirst c s := by
  by_cases hc : strContains c s = true
  · simp [hc]
  · simp only [Bool.not_eq_true] at hc
    simp [hc, beforeFirst_of_not_contains _ _ hc]

theorem beforeFirst_data_cons (c h : Char) (rest : List Char) (s : String)
    (hs : s.data = h :: rest) (hne : h ≠ c) :
    (beforeFirst c s).data = h :: rest.takeWhile (· ≠ c) := by
  unfold beforeFirst
  simp [hs, List.takeWhile_cons, hne]

/-- When the record's name has a first character other than `_` and `/`, the
`source` derivation of `excusedata` succeeds and follows the spec-worded
fixed-order stripping. -/
theorem sourceOfName_eq_spec (name : String) (c : Char) (rest : List Char)
    (hname : name.data = c :: rest) (h1 : c ≠ '_') (h2 : c ≠ '/') :
    sourceOfName name = some (specSource name) := by
  have hd1 : (beforeFirst '_' name).data = c :: rest.takeWhile (· ≠ '_') :=
    beforeFirst_data_cons '_' c rest name hname h1
  have hd2 : (beforeFirst '/' (beforeFirst '_' name)).data =
      c :: (rest.takeWhile (· ≠ '_')).takeWhile (· ≠ '/') :=
    beforeFirst_data_cons '/' c (rest.takeWhile (· ≠ '_')) (beforeFirst '_' name) hd1 h2
  unfold sourceOfName specSource
  dsimp only
  rw [iteContains_eq_beforeFirst, iteContains_eq_beforeFirst, hd2]
  by_cases hc : c = '-'
  · subst hc
    simp
  · simp [hc]

/-- C1: assigning a terminal-reject verdict through the `policy_verdict`
setter to a record with `forced = true` stores `PASS_HINTED` instead (so the
record remains acceptable, `is_valid = true`); with `forced = false` the
assigned verdict is stored unchanged. -/
theorem C1_forced_setter_override (e : Excuse) (v : PolicyVerdict) :
    (e.forced = true → v.is_rejected = true →
      (Excuse.set_policy_verdict v e).policy_verdict = PolicyVerdict.PASS_HINTED ∧
      (Excuse.set_policy_verdict v e).is_valid = true) ∧
    (e.forced = false → (Excuse.set_policy_verdict v e).policy_verdict = v) := by
  constructor
  · intro hf hv
    have hcond : (v.is_rejected && e.forced) = true := by rw [hv, hf]; rfl
    unfold Excuse.set_policy_verdict
    rw [hcond]
    exact ⟨rfl, rfl⟩
  · intro hf
    unfold Excuse.set_policy_verdict
    rw [hf, Bool.and_false]
    exact rfl

theorem C1_forced_setter_override_witness :
    (Excuse.set_policy_verdict .REJECTED_PERMANENTLY
        { Excuse.init "a" with forced := true }).policy_verdict = PolicyVerdict.PASS_HINTED ∧
    (Excuse.set_policy_verdict .REJECTED_PERMANENTLY
        { Excuse.init "a" with forced := true }).is_valid = true ∧
    (Excuse.set_policy_verdict .REJECTED_TEMPORARILY (Excuse.init "b")).policy_verdict =
      PolicyVerdict.REJECTED_TEMPORARILY := by
  refine ⟨?_, ?_, ?_⟩
  · exact ((C1_forced_setter_override { Excuse.init "a" with forced := true }
      .REJECTED_PERMANENTLY).1 rfl rfl).1
  · exact ((C1_forced_setter_override { Excuse.init "a" with forced := true }
      .REJECTED_PERMANENTLY).1 rfl rfl).2
  · exact (C1_forced_setter_override (Excuse.init "b") .REJECTED_TEMPORARILY).2 rfl

/-- C4: `force()` sets `forced = true`; it returns `true` and rewrites the
verdict to `PASS_HINTED` exactly when the verdict at call time is a
terminal-reject, and returns `false` leaving the verdict unchanged
otherwise. -/
theorem C4_force_behaviour (e : Excuse) :
    (Excuse.force e).2.forced = true ∧
    (e.policy_verdict.is_rejected = true →
      (Excuse.force e).1 = true ∧
      (Excuse.force e).2.policy_verdict = PolicyVerdict.PASS_HINTED) ∧
    (e.policy_verdict.is_rejected = false →
      (Excuse.force e).1 = false ∧
      (Excuse.force e).2.policy_verdict = e.policy_verdict) := by
  unfold Excuse.force
  by_cases h : e.policy_verdict.is_rejected = true
  · simp [h]
  · simp only [Bool.not_eq_true] at h
    simp [h]

theorem C4_force_behaviour_witness :
    (Excuse.force (Excuse.init "a")).1 = true ∧
    (Excuse.force (Excuse.init "a")).2.policy_verdict = PolicyVerdict.PASS_HINTED ∧
    (Excuse.force (Excuse.init "a")).2.forced = true ∧
    (Excuse.force (Excuse.set_policy_verdict .PASS (Excuse.init "b"))).1 = false := by
  refine ⟨(((C4_force_behaviour (Excuse.init "a")).2.1) rfl).1,
    (((C4_force_behaviour (Excuse.init "a")).2.1) rfl).2,
    (C4_force_behaviour (Excuse.init "a")).1,
    (((C4_force_behaviour (Excuse.set_policy_verdict .PASS (Excuse.init "b"))).2.2) rfl).1⟩

/-- C7: `add_sane_dep` and `add_unsatisfiable_on_arch` are idempotent:
calling either twice with the same argument leaves the whole record (in
particular the underlying sequence and its first-seen insertion order)
identical to calling it once. -/
theorem C7_sane_dep_unsat_arch_idempotent (e : Excuse) (n a : String) :
    Excuse.add_sane_dep n (Excuse.add_sane_dep n e) = Excuse.add_sane_dep n e ∧
    Excuse.add_unsatisfiable_on_arch a (Excuse.add_unsatisfiable_on_arch a e) =
      Excuse.add_unsatisfiable_on_arch a e := by
  constructor
  · unfold Excuse.add_sane_dep
    by_cases h : n ∈ e.sane_deps <;> simp [h]
  · unfold Excuse.add_unsatisfiable_on_arch
    by_cases h : a ∈ e.unsatisfiable_on_archs <;> simp [h]

/-- C2 (evaluating the code at the failing input): after
`missing_build_on_ood_arch("amd64")` on a fresh record, the structured
document lists `amd64` under `on-architectures` and leaves
`on-unimportant-architectures` empty — the method adds to `missing_builds`,
not to `missing_builds_ood_arch`, which stays empty forever. -/
theorem C2_ood_arch_misfiled :
    ((Excuse.excusedata oodArchRecord).map fun d => d.missing_builds) =
      some (some { on_architectures := ["amd64"], on_unimportant_architectures := [] }) ∧
    oodArchRecord.missing_builds_ood_arch = [] ∧
    oodArchRecord.missing_builds = ["amd64"] :=
  ⟨rfl, rfl, rfl⟩

/-- C3 (counterexample): in scenario B the `dependencies` sub-document is
present but carries no `migrate-after` key at all (`none`), rather than the
key with an empty list as the claim states. -/
theorem C3_migrate_after_key_absent :
    ((Excuse.excusedata scenarioB).map fun d => d.dependencies.map fun dd => dd.migrate_after) =
      some (some none) :=
  rfl

/-- C3 (amended): in scenario B the structured document has
`dependencies.blocked-by == ["libbar"]`, no `migrate-after` key (it is
omitted because the set of `all_deps` keys excluding invalidated ones is
empty), and `invalidated-by-other-package == true`. -/
theorem C3_scenarioB_document :
    ((Excuse.excusedata scenarioB).map fun d => d.dependencies) =
      some (some ⟨some ["libbar"], none, none, none⟩) ∧
    ((Excuse.excusedata scenarioB).map fun d => d.invalidated_by_other_package) =
      some (some true) :=
  ⟨rfl, rfl⟩

/-- C5 (counterexample): for the record name `"_1.0"` the first stripping
step yields the empty string, on which the code's `source[0]` access raises,
so no structured document (and no `source` field) is produced at all. -/
theorem C5_underscore_name_raises :
    Excuse.excusedata (Excuse.init "_1.0") = none :=
  rfl

/-- C5 (amended): for every record whose name is non-empty and does not start
with `_` or `/`, the structured document's `source` field is obtained by
stripping the part after the first `_`, then the part after the first `/`,
then a single leading `-`, in that fixed order; in particular `"foo_1.0"`,
`"foo/amd64"`, `"-foo"` and `"foo"` all yield source `"foo"`. -/
theorem C5_source_fixed_order (e : Excuse) (c : Char) (rest : List Char)
    (hname : e.name.data = c :: rest) (h1 : c ≠ '_') (h2 : c ≠ '/') :
    ((Excuse.excusedata e).map fun d => d.source) = some (specSource e.name) ∧
    specSource "foo_1.0" = "foo" ∧ specSource "foo/amd64" = "foo" ∧
    specSource "-foo" = "foo" ∧ specSource "foo" = "foo" := by
  refine ⟨?_, rfl, rfl, rfl, rfl⟩
  unfold Excuse.excusedata
  rw [sourceOfName_eq_spec e.name c rest hname h1 h2]
  rfl

theorem C5_source_fixed_order_witness :
    ((Excuse.excusedata (Excuse.init "foo_1.0")).map fun d => d.source) =
      some (specSource "foo_1.0") ∧
    specSource "foo_1.0" = "foo" := by
  refine ⟨(C5_source_fixed_order (Excuse.init "foo_1.0") 'f' "oo_1.0".data rfl
      (by decide) (by decide)).1,
    (C5_source_fixed_order (Excuse.init "foo_1.0") 'f' "oo_1.0".data rfl
      (by decide) (by decide)).2.1⟩

/-- C9: a freshly constructed record carries the permanent-reject verdict, so
`is_valid` is `false` and the structured document reports
`is-candidate = false`. -/
theorem C9_fresh_record_not_candidate (name : String) (c : Char) (rest : List Char)
    (hname : name.data = c :: rest) (h1 : c ≠ '_') (h2 : c ≠ '/') :
    (Excuse.init name).policy_verdict = PolicyVerdict.REJECTED_PERMANENTLY ∧
    (Excuse.init name).is_valid = false ∧
    ((Excuse.excusedata (Excuse.init name)).map fun d => d.is_candidate) = some false := by
  refine ⟨rfl, rfl, ?_⟩
  unfold Excuse.excusedata
  have hn : (Excuse.init name).name = name := rfl
  rw [hn, sourceOfName_eq_spec name c rest hname h1 h2]
  rfl

theorem C9_fresh_record_not_candidate_witness :
    (Excuse.init "foo").policy_verdict = PolicyVerdict.REJECTED_PERMANENTLY ∧
    (Excuse.init "foo").is_valid = false ∧
    ((Excuse.excusedata (Excuse.init "foo")).map fun d => d.is_candidate) = some false :=
  C9_fresh_record_not_candidate "foo" 'f' "oo".data rfl (by decide) (by decide)

theorem text_eq_htmlline (e : Excuse) : e.text = e.htmlline := by
  unfold Excuse.text
  simp

/-- C10: whenever the structured document is produced, it contains the
`excuses` key holding exactly the record's HTML note lines in insertion
order. -/
theorem C10_excuses_key (e : Excuse) (d : ExcuseData) (h : Excuse.excusedata e = some d) :
    d.excuses = e.htmlline := by
  unfold Excuse.excusedata at h
  cases hs : sourceOfName e.name with
  | none => rw [hs] at h; exact absurd h (by simp)
  | some src =>
      rw [hs] at h
      have hd := Option.some.inj h
      rw [← hd]
      exact text_eq_htmlline e

theorem C10_excuses_key_witness : notesRecordData.excuses = notesRecord.htmlline :=
  C10_excuses_key notesRecord notesRecordData rfl

/-- C6: `sortkey()` returns `(-1, name)` exactly when the age is unset and
`(daysold, name)` otherwise; consequently, under the lexicographic order on
keys, unknown-age records sort before known-age ones, known-age records sort
by ascending age, and ties are broken lexicographically by name. -/
theorem C6_sortkey_order (e1 e2 : Excuse) :
    (Excuse.sortkey e1 = (-1, e1.name) ↔ e1.daysold = none) ∧
    (∀ d, e1.daysold = some d → Excuse.sortkey e1 = ((d : Int), e1.name)) ∧
    (e1.daysold = none → e2.daysold ≠ none →
      keyLt (Excuse.sortkey e1) (Excuse.sortkey e2)) ∧
    (e1.daysold = none → e2.daysold = none →
      (keyLt (Excuse.sortkey e1) (Excuse.sortkey e2) ↔ e1.name < e2.name)) ∧
    (∀ d1 d2, e1.daysold = some d1 → e2.daysold = some d2 →
      (keyLt (Excuse.sortkey e1) (Excuse.sortkey e2) ↔
        (d1 < d2 ∨ (d1 = d2 ∧ e1.name < e2.name)))) := by
  refine ⟨⟨?_, ?_⟩, ?_, ?_, ?_, ?_⟩
  · intro h
    cases hd : e1.daysold with
    | none => rfl
    | some d =>
        unfold Excuse.sortkey at h
        rw [hd] at h
        have hfst := congrArg Prod.fst h
        simp only at hfst
        omega
  · intro h
    unfold Excuse.sortkey
    rw [h]
  · intro d h
    unfold Excuse.sortkey
    rw [h]
  · intro hn1 hn2
    cases hd : e2.daysold with
    | none => exact absurd hd hn2
    | some d =>
        unfold keyLt Excuse.sortkey
        rw [hn1, hd]
        left
        simp only
        omega
  · intro hn1 hn2
    unfold keyLt Excuse.sortkey
    rw [hn1, hn2]
    simp
  · intro d1 d2 hd1 hd2
    unfold keyLt Excuse.sortkey
    rw [hd1, hd2]
    simp only
    constructor
    · rintro (h | ⟨heq, hname⟩)
      · left; exact_mod_cast h
      · right; exact ⟨by exact_mod_cast heq, hname⟩
    · rintro (h | ⟨heq, hname⟩)
      · left; exact_mod_cast h
      · right; exact ⟨by exact_mod_cast heq, hname⟩

theorem C6_sortkey_order_witness :
    Excuse.sortkey (Excuse.init "a") = (-1, "a") ∧
    Excuse.sortkey (Excuse.setdaysold 3 5 (Excuse.init "b")) = (((3 : Nat) : Int), "b") ∧
    keyLt (Excuse.sortkey (Excuse.init "a"))
      (Excuse.sortkey (Excuse.setdaysold 3 5 (Excuse.init "b"))) := by
  refine ⟨(C6_sortkey_order (Excuse.init "a") (Excuse.init "a")).1.mpr rfl,
    (C6_sortkey_order (Excuse.setdaysold 3 5 (Excuse.init "b")) (Excuse.init "a")).2.1 3 rfl,
    (C6_sortkey_order (Excuse.init "a") (Excuse.setdaysold 3 5 (Excuse.init "b"))).2.2.1 rfl ?_⟩
  intro h
  exact Option.noConfusion h

/-- C8: for a record on which only the name and the version pair have been
set, HTML rendering succeeds and yields exactly the header line, the verdict
summary line and the closing markup, with no other list items. -/
theorem C8_html_minimal (name tver uver : String) (h1 : tver ≠ "") (h2 : uver ≠ "") :
    Excuse.html (Excuse.set_vers (some tver) (some uver) (Excuse.init name)) =
      some ("<a id=\"" ++ name ++ "\" name=\"" ++ name ++ "\">" ++ name ++ "</a> (" ++ tver ++
        " to " ++ uver ++ ")\n<ul>\n" ++ "<li>Migration status: " ++
        "BLOCKED: Rejected/introduces a regression" ++ "\n" ++ "</ul>\n") := by
  have hv : Excuse.set_vers (some tver) (some uver) (Excuse.init name) =
      { Excuse.init name with ver := (tver, uver) } := by
    unfold Excuse.set_vers
    have hc : (strTruthy (some tver) && strTruthy (some uver)) = true := by
      simp [strTruthy, h1, h2]
    rw [hc]
    rfl
  rewrite [hv]
  refine congrArg some ?_
  apply String.ext
  simp [Excuse.html, Excuse.init, Excuse.format_verdict_summary, VERDICT2DESC, strTruthy,
    Excuse.render_dep_issues, sortByLe, insertLe, String.data_append,
    show ("" : String).data = [] from rfl]

theorem C8_html_minimal_witness :
    Excuse.html (Excuse.set_vers (some "1.0") (some "2.0") (Excuse.init "pkg")) =
      some ("<a id=\"" ++ "pkg" ++ "\" name=\"" ++ "pkg" ++ "\">" ++ "pkg" ++ "</a> (" ++
        "1.0" ++ " to " ++ "2.0" ++ ")\n<ul>\n" ++ "<li>Migration status: " ++
        "BLOCKED: Rejected/introduces a regression" ++ "\n" ++ "</ul>\n") :=
  C8_html_minimal "pkg" "1.0" "2.0" (by decide) (by decide)
